import Mathlib

/-
Verification development for the AliExpress product-page extraction engine
(live_aliexpress_scraper.py, comprehensive_scraper.py, data_analyzer.py).

The extraction engine consumes a parsed document through a small set of
query primitives (select-one, select-all, find-string, script contents);
we embed the document model as plain data tables answering those queries,
and each Python extractor as a Lean function translated statement by
statement from the source.  Python dicts become ordered association lists
(`Obj`), Python floats become exact rationals, and external library calls
(json.loads) become an explicit function parameter.
-/

set_option maxHeartbeats 1000000

/-! ## Values and objects (Python dict model) -/

/-- A JSON-like value: the value types stored in the extracted record. -/
inductive Value where
  | str (s : String)
  | int (n : Int)
  | num (q : Rat)
  | bool (b : Bool)
  | list (vs : List Value)
  | obj (fields : List (String × Value))

/-- A Python dict with string keys, as an insertion-ordered association
list with unique keys. -/
abbrev Obj := List (String × Value)

/-- First binding for a key, mirroring Python dict lookup. -/
def lookupObj : Obj → String → Option Value
  | [], _ => none
  | (k, v) :: rest, s => if k = s then some v else lookupObj rest s

/-- Python dict assignment: overwrite in place if the key exists
(keeping its original position), otherwise append at the end. -/
def setKey : Obj → String → Value → Obj
  | [], k, v => [(k, v)]
  | (k0, v0) :: rest, k, v =>
    if k0 = k then (k0, v) :: rest else (k0, v0) :: setKey rest k v

/-- Python dict.update: fold the other dict's bindings in, in order. -/
def updateObj (base other : Obj) : Obj :=
  other.foldl (fun b kv => setKey b kv.1 kv.2) base

/-- The top-level key list of a record. -/
def keysOf (o : Obj) : List String := o.map Prod.fst

/-- Remove a key from an object (used to compare records up to one field). -/
def eraseKey : Obj → String → Obj
  | [], _ => []
  | (k, v) :: rest, s => if k = s then eraseKey rest s else (k, v) :: eraseKey rest s

/-- Python truthiness of the values the scraper stores. -/
def truthy : Value → Bool
  | .str s => s ≠ ""
  | .int n => n ≠ 0
  | .num q => q ≠ 0
  | .bool b => b
  | .list vs => !vs.isEmpty
  | .obj fs => !fs.isEmpty

/-- Python truthiness of dict.get (None is falsy). -/
def truthyOpt : Option Value → Bool
  | none => false
  | some v => truthy v

@[simp] theorem lookupObj_nil (s : String) : lookupObj [] s = none := rfl

theorem lookupObj_setKey (o : Obj) (k s : String) (v : Value) :
    lookupObj (setKey o k v) s = if k = s then some v else lookupObj o s := by
  induction o with
  | nil => simp [setKey, lookupObj]
  | cons kv rest ih =>
    obtain ⟨k0, v0⟩ := kv
    by_cases h0 : k0 = k
    · subst h0
      by_cases hs : k0 = s <;> simp [setKey, lookupObj, hs]
    · by_cases hs : k0 = s
      · subst hs
        have hks : ¬ k = k0 := fun h => h0 h.symm
        simp [setKey, lookupObj, h0, hks]
      · simp [setKey, lookupObj, h0, hs, ih]

theorem lookupObj_setKey_ne (o : Obj) (k s : String) (v : Value) (h : k ≠ s) :
    lookupObj (setKey o k v) s = lookupObj o s := by
  simp [lookupObj_setKey, h]

theorem lookupObj_setKey_self (o : Obj) (k : String) (v : Value) :
    lookupObj (setKey o k v) k = some v := by
  simp [lookupObj_setKey]

/-! ## Character and string utilities -/

/-- Python regex \s over the inputs we model. -/
def isSpaceChar (c : Char) : Bool :=
  c = ' ' || c = '\t' || c = '\n' || c = '\r' || c = '\x0b' || c = '\x0c'

/-- Python regex \w (ASCII portion). -/
def isWordChar (c : Char) : Bool :=
  c.isAlpha || c.isDigit || c = '_'

/-- List-level prefix test against a pattern string. -/
def startsWithL (cs : List Char) (p : String) : Bool :=
  p.toList.isPrefixOf cs

/-- Substring containment (Python `in` on strings). -/
def containsSubL : List Char → List Char → Bool
  | _, [] => true
  | [], _ :: _ => false
  | c :: t, sub => if sub.isPrefixOf (c :: t) then true else containsSubL t sub

/-- Substring containment (Python `sub in s`). -/
def containsSub (s sub : String) : Bool :=
  containsSubL s.toList sub.toList

/-- Python str.lower over the ASCII range (the range all the compared
patterns live in). -/
def lowerChar (c : Char) : Char :=
  if 'A' ≤ c ∧ c ≤ 'Z' then Char.ofNat (c.toNat + 32) else c

def asciiLower (s : String) : String :=
  String.mk (s.toList.map lowerChar)

/-- Python str.strip(). -/
def trimStr (s : String) : String :=
  String.mk (((s.toList.dropWhile isSpaceChar).reverse.dropWhile isSpaceChar).reverse)

/-- Python str.endswith(p). -/
def endsWithStr (s p : String) : Bool :=
  p.toList.reverse.isPrefixOf s.toList.reverse

/-- Python s[:-n]. -/
def dropRightStr (s : String) (n : Nat) : String :=
  String.mk (s.toList.take (s.toList.length - n))

/-- Numeric value of a digit run (empty run gives 0). -/
def natOfDigits (ds : List Char) : Nat :=
  ds.foldl (fun a c => a * 10 + (c.toNat - 48)) 0

/-- Replace every occurrence of a nonempty pattern (Python str.replace). -/
def replaceAllL : Nat → List Char → List Char → List Char → List Char
  | 0, cs, _, _ => cs
  | _ + 1, [], _, _ => []
  | fuel + 1, c :: t, pat, rep =>
    if pat.isPrefixOf (c :: t) ∧ pat ≠ [] then
      rep ++ replaceAllL fuel ((c :: t).drop pat.length) pat rep
    else
      c :: replaceAllL fuel t pat rep

/-- Python str.replace (all occurrences). -/
def replaceAll (s pat rep : String) : String :=
  String.mk (replaceAllL (s.length + 1) s.toList pat.toList rep.toList)

/-! ## Concrete matchers for the regular expressions used by the scraper.
Each mirrors one literal pattern from the source; all searches are
leftmost-first, as in Python re.search. -/

/-- Attempt r'/item/(\d+)\.html' at the current position; capture group 1. -/
def itemIdAt (cs : List Char) : Option String :=
  if startsWithL cs "/item/" then
    let rest := cs.drop 6
    let ds := rest.takeWhile Char.isDigit
    if ds ≠ [] ∧ startsWithL (rest.drop ds.length) ".html" then
      some (String.mk ds)
    else none
  else none

def searchItemIdAux : Nat → List Char → Option String
  | 0, _ => none
  | fuel + 1, cs =>
    match itemIdAt cs with
    | some g => some g
    | none =>
      match cs with
      | [] => none
      | _ :: t => searchItemIdAux fuel t

/-- re.search(r'/item/(\d+)\.html', s): first captured item id. -/
def searchItemId (s : String) : Option String :=
  searchItemIdAux (s.length + 1) s.toList

/-- Attempt r'productId["\']?\s*:\s*["\']?(\d+)' at the current position. -/
def productIdVarAt (cs : List Char) : Option String :=
  if startsWithL cs "productId" then
    let r1 := cs.drop 9
    let r2 := match r1 with
      | c :: t => if c = '"' ∨ c = '\'' then t else r1
      | [] => r1
    let r3 := r2.dropWhile isSpaceChar
    match r3 with
    | ':' :: r4 =>
      let r5 := r4.dropWhile isSpaceChar
      let r6 := match r5 with
        | c :: t => if c = '"' ∨ c = '\'' then t else r5
        | [] => r5
      let ds := r6.takeWhile Char.isDigit
      if ds ≠ [] then some (String.mk ds) else none
    | _ => none
  else none

def searchProductIdVarAux : Nat → List Char → Option String
  | 0, _ => none
  | fuel + 1, cs =>
    match productIdVarAt cs with
    | some g => some g
    | none =>
      match cs with
      | [] => none
      | _ :: t => searchProductIdVarAux fuel t

/-- re.search(r'productId["\']?\s*:\s*["\']?(\d+)', s). -/
def searchProductIdVar (s : String) : Option String :=
  searchProductIdVarAux (s.length + 1) s.toList

/-- re.search(r'(\d+)', s): the first maximal digit run, as a number. -/
def firstDigitsAux : Nat → List Char → Option Nat
  | 0, _ => none
  | _ + 1, [] => none
  | fuel + 1, c :: t =>
    if c.isDigit then some (natOfDigits ((c :: t).takeWhile Char.isDigit))
    else firstDigitsAux fuel t

def firstDigits (s : String) : Option Nat :=
  firstDigitsAux (s.length + 1) s.toList

/-- re.search(r'(\d+\.\d+)', s) as a rational (float of the group). -/
def searchDecimalAux : Nat → List Char → Option Rat
  | 0, _ => none
  | _ + 1, [] => none
  | fuel + 1, c :: t =>
    if c.isDigit then
      let ip := (c :: t).takeWhile Char.isDigit
      match (c :: t).drop ip.length with
      | '.' :: r =>
        let fp := r.takeWhile Char.isDigit
        if fp ≠ [] then
          some ((natOfDigits ip : Rat) + (natOfDigits fp : Rat) / ((10 : Rat) ^ fp.length))
        else searchDecimalAux fuel t
      | _ => searchDecimalAux fuel t
    else searchDecimalAux fuel t

def searchDecimal (s : String) : Option Rat :=
  searchDecimalAux (s.length + 1) s.toList

/-- True iff re.search(r'\d+\.\d+', s) matches. -/
def containsDecimal (s : String) : Bool :=
  (searchDecimal s).isSome

/-- re.search(r'(\d+(?:\.\d+)?)', s) as a rational. -/
def searchNumAux : Nat → List Char → Option Rat
  | 0, _ => none
  | _ + 1, [] => none
  | fuel + 1, c :: t =>
    if c.isDigit then
      let ip := (c :: t).takeWhile Char.isDigit
      match (c :: t).drop ip.length with
      | '.' :: r =>
        let fp := r.takeWhile Char.isDigit
        if fp ≠ [] then
          some ((natOfDigits ip : Rat) + (natOfDigits fp : Rat) / ((10 : Rat) ^ fp.length))
        else some (natOfDigits ip : Rat)
      | _ => some (natOfDigits ip : Rat)
    else searchNumAux fuel t

def searchNum (s : String) : Option Rat :=
  searchNumAux (s.length + 1) s.toList

def isUpperAZ (c : Char) : Bool := 'A' ≤ c && c ≤ 'Z'

/-- re.search(r'^([A-Z]{3}|[€$£¥₹₽])', s): a currency code or symbol at
the start of the price text, three-letter code tried first. -/
def searchCurrency (s : String) : Option String :=
  match s.toList with
  | a :: b :: c :: _ =>
    if isUpperAZ a ∧ isUpperAZ b ∧ isUpperAZ c then some (String.mk [a, b, c])
    else if a = '€' ∨ a = '$' ∨ a = '£' ∨ a = '¥' ∨ a = '₹' ∨ a = '₽' then
      some (String.mk [a])
    else none
  | a :: _ =>
    if a = '€' ∨ a = '$' ∨ a = '£' ∨ a = '¥' ∨ a = '₹' ∨ a = '₽' then
      some (String.mk [a])
    else none
  | [] => none

/-- Scan for the first "};" after a DOTALL non-greedy body, including the
closing brace in the group (tail of r'({.*?});'). -/
def braceGroupAux : Nat → List Char → List Char → Option String
  | 0, _, _ => none
  | _ + 1, acc, '\x7d' :: ';' :: _ => some (String.mk (('\x7d' :: acc).reverse))
  | fuel + 1, acc, c :: t => braceGroupAux fuel (c :: acc) t
  | _ + 1, _, [] => none

/-- Attempt the pattern lhs + r'\s*=\s*({.*?});' (re.DOTALL) at the
current position; capture the braced group. -/
def jsAssignAt (lhs : List Char) (cs : List Char) : Option String :=
  if lhs.isPrefixOf cs ∧ lhs ≠ [] then
    let r1 := (cs.drop lhs.length).dropWhile isSpaceChar
    match r1 with
    | '=' :: r2 =>
      let r3 := r2.dropWhile isSpaceChar
      match r3 with
      | '\x7b' :: r4 => braceGroupAux (r4.length + 1) ['\x7b'] r4
      | _ => none
    | _ => none
  else none

def searchJsAssignAux (lhs : List Char) : Nat → List Char → Option String
  | 0, _ => none
  | fuel + 1, cs =>
    match jsAssignAt lhs cs with
    | some g => some g
    | none =>
      match cs with
      | [] => none
      | _ :: t => searchJsAssignAux lhs fuel t

/-- re.search(lhs + r'\s*=\s*({.*?});', s, re.DOTALL) where lhs is the
literal assignment target, e.g. "window.runParams". -/
def searchJsAssign (lhs s : String) : Option String :=
  searchJsAssignAux lhs.toList (s.length + 1) s.toList

/-- Scan for the first ']' (non-greedy, '.' does not cross newlines),
including it in the group (tail of r'(\[.*?\])'). -/
def bracketGroupAux : Nat → List Char → List Char → Option String
  | 0, _, _ => none
  | _ + 1, acc, ']' :: _ => some (String.mk ((']' :: acc).reverse))
  | _ + 1, _, '\n' :: _ => none
  | fuel + 1, acc, c :: t => bracketGroupAux fuel (c :: acc) t
  | _ + 1, _, [] => none

/-- Attempt key + r'\s*(\[.*?\])' at the current position, where key is
the literal quoted name with colon, e.g. "\"imagePathList\":". -/
def bracketListAt (key : List Char) (cs : List Char) : Option String :=
  if key.isPrefixOf cs ∧ key ≠ [] then
    let r1 := (cs.drop key.length).dropWhile isSpaceChar
    match r1 with
    | '[' :: r2 => bracketGroupAux (r2.length + 1) ['['] r2
    | _ => none
  else none

def bracketListSearchAux (key : List Char) : Nat → List Char → Option String
  | 0, _ => none
  | fuel + 1, cs =>
    match bracketListAt key cs with
    | some g => some g
    | none =>
      match cs with
      | [] => none
      | _ :: t => bracketListSearchAux key fuel t

/-- re.search(key + r'\s*(\[.*?\])', s): the first bracketed list after
the quoted key. -/
def bracketListSearch (key s : String) : Option String :=
  bracketListSearchAux key.toList (s.length + 1) s.toList

/-- Attempt r'\w{3}\s+\d+\s*-\s*\w{3}\s+\d+\b' after a word boundary
(prev is the character before the position, if any). -/
def delivery1At (prev : Option Char) (cs : List Char) : Bool :=
  (match prev with
   | some p => !isWordChar p
   | none => true) &&
  (match cs with
   | w1 :: w2 :: w3 :: r0 =>
     if isWordChar w1 ∧ isWordChar w2 ∧ isWordChar w3 then
       let sp1 := r0.takeWhile isSpaceChar
       if sp1 ≠ [] then
         let r1 := r0.drop sp1.length
         let d1 := r1.takeWhile Char.isDigit
         if d1 ≠ [] then
           let r2 := (r1.drop d1.length).dropWhile isSpaceChar
           match r2 with
           | '-' :: r3 =>
             let r4 := r3.dropWhile isSpaceChar
             match r4 with
             | x1 :: x2 :: x3 :: r5 =>
               if isWordChar x1 ∧ isWordChar x2 ∧ isWordChar x3 then
                 let sp2 := r5.takeWhile isSpaceChar
                 if sp2 ≠ [] then
                   let r6 := r5.drop sp2.length
                   let d2 := r6.takeWhile Char.isDigit
                   if d2 ≠ [] then
                     match r6.drop d2.length with
                     | [] => true
                     | c :: _ => !isWordChar c
                   else false
                 else false
               else false
             | _ => false
           | _ => false
         else false
       else false
     else false
   | _ => false)

def delivery1Aux : Nat → Option Char → List Char → Bool
  | 0, _, _ => false
  | fuel + 1, prev, cs =>
    if delivery1At prev cs then true
    else
      match cs with
      | [] => false
      | c :: t => delivery1Aux fuel (some c) t

/-- True iff re.search(r'\b\w{3}\s+\d+\s*-\s*\w{3}\s+\d+\b', s) matches
(a date range like "Jul 18 - Aug 04"). -/
def matchesDeliveryRange (s : String) : Bool :=
  delivery1Aux (s.length + 1) none s.toList

/-- Attempt r'\d+\s*-\s*\d+\s*days?' at the current position. -/
def delivery2At (cs : List Char) : Bool :=
  let d1 := cs.takeWhile Char.isDigit
  if d1 ≠ [] then
    let r1 := (cs.drop d1.length).dropWhile isSpaceChar
    match r1 with
    | '-' :: r2 =>
      let r3 := r2.dropWhile isSpaceChar
      let d2 := r3.takeWhile Char.isDigit
      if d2 ≠ [] then
        let r4 := (r3.drop d2.length).dropWhile isSpaceChar
        startsWithL r4 "day"
      else false
    | _ => false
  else false

def delivery2Aux : Nat → List Char → Bool
  | 0, _ => false
  | fuel + 1, cs =>
    if delivery2At cs then true
    else
      match cs with
      | [] => false
      | _ :: t => delivery2Aux fuel t

/-- True iff re.search(r'\d+\s*-\s*\d+\s*days?', s) matches. -/
def matchesDeliveryDays (s : String) : Bool :=
  delivery2Aux (s.length + 1) s.toList

/-- Attempt r'\d+\s*dni\b' at the current position. -/
def delivery3At (cs : List Char) : Bool :=
  let d1 := cs.takeWhile Char.isDigit
  if d1 ≠ [] then
    let r1 := (cs.drop d1.length).dropWhile isSpaceChar
    if startsWithL r1 "dni" then
      match r1.drop 3 with
      | [] => true
      | c :: _ => !isWordChar c
    else false
  else false

def delivery3Aux : Nat → List Char → Bool
  | 0, _ => false
  | fuel + 1, cs =>
    if delivery3At cs then true
    else
      match cs with
      | [] => false
      | _ :: t => delivery3Aux fuel t

/-- True iff re.search(r'\d+\s*dni\b', s) matches (Polish "X dni"). -/
def matchesDeliveryDni (s : String) : Bool :=
  delivery3Aux (s.length + 1) s.toList

/-- True iff re.search(r'za szt|per piece|pieces?', s) matches. -/
def matchesBulk (s : String) : Bool :=
  containsSub s "za szt" || containsSub s "piece"

/-- True iff re.search(r'bez podatku|tax|VAT', s, re.I) matches. -/
def matchesTax (s : String) : Bool :=
  containsSub (asciiLower s) "bez podatku" || containsSub (asciiLower s) "tax" ||
    containsSub (asciiLower s) "vat"

/-- True iff re.search(r'Free shipping|Darmowa dostawa|免费', s, re.I)
matches. -/
def matchesFreeShipping (s : String) : Bool :=
  containsSub (asciiLower s) "free shipping" || containsSub (asciiLower s) "darmowa dostawa" ||
    containsSub s "免费"

def isLetterAZ (c : Char) : Bool :=
  ('A' ≤ c && c ≤ 'Z') || ('a' ≤ c && c ≤ 'z')

def isNewlineChar (c : Char) : Bool := c = '\n' || c = '\r'

/-- Greedy backtracking split for r'\s*([^\n\r]+)': choose the largest
t ≤ m (m = length of the whitespace run) at which a non-newline
character starts; regex preference tries m first, then shorter. -/
def chooseValueStart (rest : List Char) : Nat → Option Nat
  | 0 =>
    match rest with
    | c :: _ => if !isNewlineChar c then some 0 else none
    | [] => none
  | t + 1 =>
    match rest.drop (t + 1) with
    | c :: _ => if !isNewlineChar c then some (t + 1) else chooseValueStart rest t
    | [] => chooseValueStart rest t

/-- Attempt r'([A-Za-z\s]+):\s*([^\n\r]+)' at the current position;
returns (group1, group2, consumed length). -/
def spec1At (cs : List Char) : Option (String × String × Nat) :=
  let run := cs.takeWhile (fun c => isLetterAZ c || isSpaceChar c)
  if run ≠ [] then
    match cs.drop run.length with
    | ':' :: rest =>
      let m := (rest.takeWhile isSpaceChar).length
      match chooseValueStart rest m with
      | some t =>
        let v := (rest.drop t).takeWhile (fun c => !isNewlineChar c)
        some (String.mk run, String.mk v, run.length + 1 + t + v.length)
      | none => none
    | _ => none
  else none

/-- Attempt r'([A-Za-z\s]+)\s*-\s*([^\n\r]+)' at the current position. -/
def spec2At (cs : List Char) : Option (String × String × Nat) :=
  let run := cs.takeWhile (fun c => isLetterAZ c || isSpaceChar c)
  if run ≠ [] then
    match cs.drop run.length with
    | '-' :: rest =>
      let m := (rest.takeWhile isSpaceChar).length
      match chooseValueStart rest m with
      | some t =>
        let v := (rest.drop t).takeWhile (fun c => !isNewlineChar c)
        some (String.mk run, String.mk v, run.length + 1 + t + v.length)
      | none => none
    | _ => none
  else none

/-- re.findall: non-overlapping leftmost matches, in order. -/
def findallAux (matchAt : List Char → Option (String × String × Nat)) :
    Nat → List Char → List (String × String)
  | 0, _ => []
  | fuel + 1, cs =>
    match matchAt cs with
    | some (k, v, n) => (k, v) :: findallAux matchAt fuel (cs.drop n)
    | none =>
      match cs with
      | [] => []
      | _ :: t => findallAux matchAt fuel t

/-- re.findall(r'([A-Za-z\s]+):\s*([^\n\r]+)', s). -/
def findallSpecColon (s : String) : List (String × String) :=
  findallAux spec1At (s.length + 1) s.toList

/-- re.findall(r'([A-Za-z\s]+)\s*-\s*([^\n\r]+)', s). -/
def findallSpecDash (s : String) : List (String × String) :=
  findallAux spec2At (s.length + 1) s.toList

/-! ## Numeric coercion (data_analyzer._extract_number_from_text and the
Python float()/int() builtins it relies on; floats are modelled as exact
rationals, which agrees with IEEE doubles on the magnitudes involved). -/

/-- Python float(s) on a string containing only digits and dots:
optional integer part, optional '.' and fraction, at least one digit.
The value is returned exactly, as mantissa and decimal scale:
float(s) = mantissa / 10 ^ scale.  (Exact decimal arithmetic agrees
with IEEE doubles on every value this coercion path produces.) -/
def pyFloatParts (s : String) : Option (Nat × Nat) :=
  let cs := s.toList
  let ip := cs.takeWhile Char.isDigit
  match cs.drop ip.length with
  | [] => if ip ≠ [] then some (natOfDigits ip, 0) else none
  | '.' :: frac =>
    if frac.all Char.isDigit ∧ (ip ≠ [] ∨ frac ≠ []) then
      some (natOfDigits ip * 10 ^ frac.length + natOfDigits frac, frac.length)
    else none
  | _ => none

/-- Python int(s) on a string: optional sign, then digits. -/
def pyIntParse (s : String) : Option Int :=
  let t := (trimStr s).toList
  let core : List Char → Option Nat := fun ds =>
    if ds ≠ [] ∧ ds.all Char.isDigit then some (natOfDigits ds) else none
  match t with
  | '-' :: ds => (core ds).map (fun n => -(n : Int))
  | '+' :: ds => (core ds).map (fun n => (n : Int))
  | ds => (core ds).map (fun n => (n : Int))

/-- data_analyzer._extract_number_from_text: strip everything but digits,
dots and K/M/k/m, apply the k/m suffix multiplier, parse as a float, and
truncate; None when the cleaned text does not parse. -/
def cleanNumericText (text : String) : String :=
  String.mk (text.toList.filter
    (fun c => c.isDigit || c = '.' || c = 'K' || c = 'M' || c = 'k' || c = 'm'))

def extract_number_from_text (text : String) : Option Int :=
  if text = "" then none
  else
    let clean := cleanNumericText text
    let lower := asciiLower clean
    let p : Nat × String :=
      if endsWithStr lower "k" then (1000, dropRightStr clean 1)
      else if endsWithStr lower "m" then (1000000, dropRightStr clean 1)
      else (1, clean)
    match pyFloatParts p.2 with
    | some mf => some (Int.ofNat (mf.1 * p.1 / 10 ^ mf.2))
    | none => none

/-! ## Document model

The scraper reads the parsed page only through BeautifulSoup query
primitives.  We embed the document as response tables for those
primitives: css-selector tables for select_one/select, the list of
visible text nodes for find(string=...), (tag, string) pairs for
find(tag, string=...), script contents for find_all('script'), the html
lang attribute, the driver's current URL, and the page text sample. -/

/-- A parsed element, with its query responses.  textStripped models
get_text(strip=True); textRaw models get_text(). -/
inductive Elem where
  | mk (tag : String) (attrs : List (String × String)) (classes : List String)
       (textRaw : String) (textStripped : String)
       (oneTbl : List (String × Elem)) (allTbl : List (String × List Elem))

/-- Lookup in a string-keyed table. -/
def assocFind {α : Type} : List (String × α) → String → Option α
  | [], _ => none
  | (k, v) :: rest, s => if k = s then some v else assocFind rest s

def Elem.tag : Elem → String
  | .mk t _ _ _ _ _ _ => t

def Elem.attrs : Elem → List (String × String)
  | .mk _ a _ _ _ _ _ => a

def Elem.classes : Elem → List String
  | .mk _ _ c _ _ _ _ => c

def Elem.textRaw : Elem → String
  | .mk _ _ _ r _ _ _ => r

def Elem.textStripped : Elem → String
  | .mk _ _ _ _ s _ _ => s

/-- element.select_one(selector). -/
def Elem.selOne : Elem → String → Option Elem
  | .mk _ _ _ _ _ one _, s => assocFind one s

/-- element.select(selector) (empty when the selector has no matches). -/
def Elem.selAll : Elem → String → List Elem
  | .mk _ _ _ _ _ _ all, s => (assocFind all s).getD []

/-- element.get(attr) / element.get(attr, default). -/
def Elem.getAttr (e : Elem) (a : String) : Option String :=
  assocFind e.attrs a

/-- A visible text node (NavigableString) with its parent's stripped
text, for soup.find(string=...) results. -/
structure TextNode where
  text : String
  parentText : Option String

/-- The document (soup), as query-response tables. -/
structure Doc where
  oneTbl : List (String × Elem)
  allTbl : List (String × List Elem)
  strings : List TextNode
  tagStrings : List (String × String)
  scripts : List String
  htmlLang : Option String
  currentUrl : Option String
  fullText : String

/-- soup.select_one(selector). -/
def Doc.selOne (d : Doc) (s : String) : Option Elem :=
  assocFind d.oneTbl s

/-- soup.select(selector). -/
def Doc.selAll (d : Doc) (s : String) : List Elem :=
  (assocFind d.allTbl s).getD []

/-- soup.find(string=pred): first visible text node whose text matches. -/
def Doc.findStr (d : Doc) (p : String → Bool) : Option TextNode :=
  d.strings.find? (fun tn => p tn.text)

/-- soup.find(tag, string=pred): the string of the first element of that
tag whose string matches. -/
def Doc.findTagStr (d : Doc) (tag : String) (p : String → Bool) : Option String :=
  (d.tagStrings.find? (fun ts => ts.1 == tag && p ts.2)).map Prod.snd

/-- Python `a or b` over optional attribute strings (empty is falsy). -/
def pyOr (a b : Option String) : Option String :=
  match a with
  | some s => if s ≠ "" then some s else b
  | none => b

/-- Shared cascade: try selectors in order, first hit wins
(the repeated "for selector in ...: if elem: ...; break" loops). -/
def firstMatch (q : String → Option Elem) : List String → Option Elem
  | [] => none
  | s :: rest =>
    match q s with
    | some e => some e
    | none => firstMatch q rest

/-! ## Field extractors (AliExpressLiveScraper) -/

/-- live _extract_product_id, branch (c): scan script contents for
r'productId["\']?\s*:\s*["\']?(\d+)'. -/
def productIdFromScripts : List String → Option String
  | [] => none
  | s :: rest =>
    match searchProductIdVar s with
    | some g => some g
    | none => productIdFromScripts rest

/-- live _extract_product_id, branches (b) then (c): the driver's
current URL, then embedded script variables. -/
def productIdFromDriver (d : Doc) : Option String :=
  match d.currentUrl with
  | some u =>
    match searchItemId u with
    | some g => some g
    | none => productIdFromScripts d.scripts
  | none => productIdFromScripts d.scripts

/-- live _extract_product_id: og:url meta tag, then current URL, then
embedded script variables; first success wins. -/
def extractProductId (d : Doc) : Option String :=
  match d.selOne "meta[property=\"og:url\"]" with
  | some og =>
    let url := (og.getAttr "content").getD ""
    match searchItemId url with
    | some g => some g
    | none => productIdFromDriver d
  | none => productIdFromDriver d

/-- live _extract_category breadcrumb loop (reversed, skipping Home). -/
def categoryFromCrumbs : List Elem → Option String
  | [] => none
  | c :: rest =>
    if ["home", "accueil", "startseite"].contains (asciiLower c.textStripped) then
      categoryFromCrumbs rest
    else some c.textStripped

/-- live _extract_category: last meaningful breadcrumb, else the
category meta tag, else the placeholder "Unknown". -/
def extractCategory (d : Doc) : String :=
  let crumbs := d.selAll ".breadcrumb a, .nav-breadcrumb a"
  match (if crumbs.length > 1 then categoryFromCrumbs crumbs.reverse else none) with
  | some t => t
  | none =>
    match d.selOne "meta[name=\"category\"]" with
    | some m => (m.getAttr "content").getD ""
    | none => "Unknown"

def brandSelectors : List String :=
  [".product-brand", ".brand-name", "[data-brand]", ".manufacturer"]

/-- live _extract_brand loop body: text or data-brand attribute, first
truthy wins. -/
def brandLoop (d : Doc) : List String → Option String
  | [] => none
  | s :: rest =>
    match d.selOne s with
    | some e =>
      let brand := if e.textStripped ≠ "" then e.textStripped
                   else (e.getAttr "data-brand").getD ""
      if brand ≠ "" then some brand else brandLoop d rest
    | none => brandLoop d rest

def extractBrand (d : Doc) : Option String :=
  brandLoop d brandSelectors

def titleSelectors : List String :=
  ["h1[data-pl=\"product-title\"]", ".title--wrap--UUHae_g h1", ".product-title", "h1"]

/-- live _extract_basic_info: title cascade, product id, category
(always assigned), brand. -/
def extractBasicInfo (d : Doc) : Obj :=
  let b : Obj := []
  let b := match firstMatch d.selOne titleSelectors with
    | some e => setKey b "title" (.str e.textStripped)
    | none => b
  let b := match extractProductId d with
    | some pid => setKey b "product_id" (.str pid)
    | none => b
  let b := setKey b "category" (.str (extractCategory d))
  let b := match extractBrand d with
    | some br => setKey b "brand" (.str br)
    | none => b
  b

def priceSelectors : List String :=
  ["span.product-price-value", ".price--currentPriceText--V8_y_b5",
   ".pdp-comp-price-current", "[data-pl=\"product-price\"] .price--current--I3Zeidd span"]

def originalPriceSelectors : List String :=
  [".price--originalPrice", ".product-price-original", ".price--lineThrough"]

/-- live _extract_pricing, current-price cascade stanza. -/
def pricingCurrent (d : Doc) (o : Obj) : Obj :=
  match firstMatch d.selOne priceSelectors with
  | some e => setKey o "current_price" (.str e.textStripped)
  | none => o

/-- live _extract_pricing, original-price cascade stanza. -/
def pricingOriginal (d : Doc) (o : Obj) : Obj :=
  match firstMatch d.selOne originalPriceSelectors with
  | some e => setKey o "original_price" (.str e.textStripped)
  | none => o

/-- live _extract_pricing, bulk-price stanza: find a text node matching
r'za szt|per piece|pieces?' and store its parent's text. -/
def pricingBulk (d : Doc) (o : Obj) : Obj :=
  match d.findStr matchesBulk with
  | some tn =>
    match tn.parentText with
    | some pt => setKey o "bulk_price" (.str pt)
    | none => o
  | none => o

/-- live _extract_pricing, discount stanza. -/
def pricingDiscount (d : Doc) (o : Obj) : Obj :=
  match d.selOne ".discount-percent, .sale-percent" with
  | some e => setKey o "discount" (.str e.textStripped)
  | none => o

/-- live _extract_pricing, currency stanza: leading-token pattern on the
already-extracted current price. -/
def pricingCurrency (o : Obj) : Obj :=
  match lookupObj o "current_price" with
  | some (Value.str s) =>
    if s ≠ "" then
      match searchCurrency s with
      | some cur => setKey o "currency" (.str cur)
      | none => o
    else o
  | _ => o

/-- live _extract_pricing, tax stanza: text node matching
r'bez podatku|tax|VAT' (case-insensitive), stored stripped. -/
def pricingTax (d : Doc) (o : Obj) : Obj :=
  match d.findStr matchesTax with
  | some tn => setKey o "tax_info" (.str (trimStr tn.text))
  | none => o

/-- live _extract_pricing. -/
def extractPricing (d : Doc) : Obj :=
  pricingTax d (pricingCurrency (pricingDiscount d (pricingBulk d
    (pricingOriginal d (pricingCurrent d [])))))

/-- live _parse_individual_review. -/
def parseIndividualReview (e : Elem) : Obj :=
  let rd : Obj := []
  let rd := match e.selOne ".reviewer-info, .review-author" with
    | some i => setKey rd "reviewer_info" (.str i.textStripped)
    | none => rd
  let rd := match e.selOne ".review-text, .review-content, .list--itemReview--d9Z9Z5Z" with
    | some t => setKey rd "review_text" (.str t.textStripped)
    | none => rd
  let rd := match e.selOne ".rating, .stars" with
    | some r =>
      let target := match r.classes with
        | c :: _ => c
        | [] => ""
      match searchNum target with
      | some q => setKey rd "rating" (.num q)
      | none => rd
    | none => rd
  let rd := match e.selOne ".sku-info, .variant-info, .list--itemSku--idEQSGC" with
    | some s => setKey rd "sku" (.str s.textStripped)
    | none => rd
  let rd :=
    let imgs := e.selAll ".review-image img"
    if !imgs.isEmpty then
      let urls := imgs.foldl (fun acc img =>
        match pyOr (img.getAttr "src") (img.getAttr "data-src") with
        | some src => if src ≠ "" then acc ++ [src] else acc
        | none => acc) []
      if !urls.isEmpty then setKey rd "images" (.list (urls.map Value.str)) else rd
    else rd
  rd

/-- live _extract_reviews_and_ratings, rating stanza:
find('strong', string=r'\d+\.\d+'), re-extract the decimal, as a float. -/
def reviewsRating (d : Doc) (o : Obj) : Obj :=
  match d.findTagStr "strong" containsDecimal with
  | some s =>
    match searchDecimal (trimStr s) with
    | some q => setKey o "rating" (.num q)
    | none => o
  | none => o

def reviewCountSelectors : List String :=
  ["a[href*=\"review\"]", ".reviewer--reviews--cx7Zs_V", ".review-count"]

/-- live review-count loop: first selector whose element's text contains
a digit; the first digit run becomes the count. -/
def reviewsCountLoop (d : Doc) (o : Obj) : List String → Obj
  | [] => o
  | s :: rest =>
    match d.selOne s with
    | some e =>
      match firstDigits e.textRaw with
      | some n => setKey o "review_count" (.int n)
      | none => reviewsCountLoop d o rest
    | none => reviewsCountLoop d o rest

def soldSelectors : List String :=
  [".reviewer--sold--ytPeoEy", ".product-sold-count", "[class*=\"sold\"]"]

/-- live sold-count loop: first selector whose element's text contains
"sold" and a digit run. -/
def reviewsSoldLoop (d : Doc) (o : Obj) : List String → Obj
  | [] => o
  | s :: rest =>
    match d.selOne s with
    | some e =>
      if containsSub (asciiLower e.textRaw) "sold" then
        match firstDigits e.textRaw with
        | some n => setKey o "sold_count" (.int n)
        | none => reviewsSoldLoop d o rest
      else reviewsSoldLoop d o rest
    | none => reviewsSoldLoop d o rest

def reviewItemsSelector : String :=
  ".list--itemDesc--JcxNPy5, .review-item, .feedback-item"

/-- live individual-reviews stanza: parse the first 10 review blocks,
keep the nonempty descriptors, store them when any survive. -/
def reviewsIndividual (d : Doc) (o : Obj) : Obj :=
  let items := d.selAll reviewItemsSelector
  let individual := ((items.take 10).map parseIndividualReview).filter
    (fun rd => !rd.isEmpty)
  if !individual.isEmpty then
    setKey o "individual_reviews" (.list (individual.map Value.obj))
  else o

/-- live _extract_reviews_and_ratings. -/
def extractReviews (d : Doc) : Obj :=
  reviewsIndividual d
    (reviewsSoldLoop d
      (reviewsCountLoop d (reviewsRating d []) reviewCountSelectors)
      soldSelectors)

def variationTitleSelector : String := ".sku-item--title--Z0HLO87, .variation-title"

def variationOptionSelector : String := "[data-sku-col], .variation-option"

/-- live _parse_variation_item, inner option loop body: image and alt
text, visible text, selected and sold-out class flags. -/
def optionDescriptor (o : Elem) : Obj :=
  let od : Obj := []
  let od := match o.selOne "img" with
    | some img =>
      setKey (setKey od "image" (.str ((img.getAttr "src").getD "")))
        "alt_text" (.str ((img.getAttr "alt").getD ""))
    | none => od
  let od := if o.textStripped ≠ "" then setKey od "text" (.str o.textStripped) else od
  let od := if o.classes.any (fun c => containsSub c "selected") then
      setKey od "selected" (.bool true)
    else od
  let od := if o.classes.any (fun c => containsSub c "soldOut" || containsSub c "sold-out") then
      setKey od "sold_out" (.bool true)
    else od
  od

/-- live _parse_variation_item: a titled axis with its nonempty option
descriptors; empty when the title is missing or no option survives. -/
def parseVariationItem (e : Elem) : Obj :=
  match e.selOne variationTitleSelector with
  | some t =>
    let name := trimStr (replaceAll t.textStripped ":" "")
    let options := ((e.selAll variationOptionSelector).map optionDescriptor).filter
      (fun od => !od.isEmpty)
    if !options.isEmpty then [(name, Value.list (options.map Value.obj))] else []
  | none => []

/-- live _extract_product_variations, quantity stanza; a failing int()
raises into the extractor boundary, which returns the accumulated dict. -/
def variationsQuantity (d : Doc) (o : Obj) : Obj :=
  match d.selOne ".quantity-selector, input[name*=\"quantity\"]" with
  | some q =>
    if q.tag = "input" then
      match q.getAttr "max" with
      | some m =>
        if m ≠ "" then
          match pyIntParse m with
          | some n => setKey o "max_quantity" (.int n)
          | none => o
        else o
      | none => o
    else o
  | none => o

/-- live _extract_product_variations. -/
def extractProductVariations (d : Doc) : Obj :=
  let variations : Obj := []
  let variations := match d.selOne ".sku--wrap--xgoW06M, .product-sku, .sku-wrap" with
    | some w =>
      (w.selAll ".sku-item--wrap--t9Qszzx, .sku-item").foldl
        (fun acc item => updateObj acc (parseVariationItem item)) variations
    | none => variations
  let variations := match d.selOne ".sku--menuTitle--UIEMJcG, .current-sku" with
    | some cur => setKey variations "current_selection" (.str cur.textStripped)
    | none => variations
  variationsQuantity d variations

def mainImageSelectors : List String :=
  [".magnifier--image--EYYoSlr", ".product-main-image img", ".main-image img"]

/-- live main-image loop: first selector whose element has a truthy src. -/
def imagesMainLoop (d : Doc) (o : Obj) : List String → Obj
  | [] => o
  | s :: rest =>
    match d.selOne s with
    | some img =>
      match img.getAttr "src" with
      | some src =>
        if src ≠ "" then setKey o "main_image" (.str src)
        else imagesMainLoop d o rest
      | none => imagesMainLoop d o rest
    | none => imagesMainLoop d o rest

/-- live gallery-script stanza, per script content: imagePathList feeds
gallery_images, summImagePathList feeds thumbnail_images, and the
generic images pattern is parsed but matches neither in-pattern branch,
so it stores nothing; a parse failure skips the pattern
(except: continue). -/
def imagePatternsApplyFull (jloads : String → Option Value) (content : String)
    (o : Obj) : Obj :=
  let o := match bracketListSearch "\"imagePathList\":" content with
    | some g =>
      match jloads g with
      | some v => setKey o "gallery_images" v
      | none => o
    | none => o
  let o := match bracketListSearch "\"summImagePathList\":" content with
    | some g =>
      match jloads g with
      | some v => setKey o "thumbnail_images" v
      | none => o
    | none => o
  o

/-- live fallback gallery collection: src or data-src, truthy, deduped. -/
def imgFallbackSrcs (imgs : List Elem) : List String :=
  imgs.foldl (fun acc img =>
    match pyOr (img.getAttr "src") (img.getAttr "data-src") with
    | some src => if src ≠ "" ∧ ¬ acc.contains src then acc ++ [src] else acc
    | none => acc) []

/-- live _extract_images. -/
def extractImages (jloads : String → Option Value) (d : Doc) : Obj :=
  let images : Obj := []
  let images := imagesMainLoop d images mainImageSelectors
  let images := (d.scripts.filter
      (fun c => containsSub c "imagePathList" || containsSub c "gallery")).foldl
    (fun acc c => imagePatternsApplyFull jloads c acc) images
  let images :=
    if truthyOpt (lookupObj images "gallery_images") then images
    else
      let srcs := imgFallbackSrcs (d.selAll ".image-gallery img, .product-images img")
      if !srcs.isEmpty then setKey images "gallery_images" (.list (srcs.map Value.str))
      else images
  let images := match d.selOne "video source, .product-video" with
    | some v =>
      match pyOr (v.getAttr "src") (v.getAttr "data-src") with
      | some src => if src ≠ "" then setKey images "product_video" (.str src) else images
      | none => images
    | none => images
  images

/-- live delivery-time loop: the three date patterns in order. -/
def shippingDelivery (d : Doc) (o : Obj) : Obj :=
  match d.findStr matchesDeliveryRange with
  | some tn => setKey o "delivery_time" (.str (trimStr tn.text))
  | none =>
    match d.findStr matchesDeliveryDays with
    | some tn => setKey o "delivery_time" (.str (trimStr tn.text))
    | none =>
      match d.findStr matchesDeliveryDni with
      | some tn => setKey o "delivery_time" (.str (trimStr tn.text))
      | none => o

/-- live _extract_shipping_info. -/
def extractShippingInfo (d : Doc) : Obj :=
  let shipping : Obj := []
  let shipping := match d.findStr matchesFreeShipping with
    | some tn =>
      match tn.parentText with
      | some pt => setKey shipping "free_shipping_info" (.str pt)
      | none => shipping
    | none => shipping
  let shipping := shippingDelivery d shipping
  let shipping := match d.selOne ".delivery-v2--to--Mtweg7y, .delivery-location" with
    | some e => setKey shipping "delivery_to" (.str e.textStripped)
    | none => shipping
  let shipping := match d.selOne ".shipping-cost, .delivery-cost" with
    | some e => setKey shipping "shipping_cost" (.str e.textStripped)
    | none => shipping
  let shipping :=
    let methods := d.selAll ".shipping-method, .delivery-option"
    if !methods.isEmpty then
      let texts := (methods.map Elem.textStripped).filter (fun t => t ≠ "")
      setKey shipping "shipping_methods" (.list (texts.map Value.str))
    else shipping
  shipping

/-- live specification-table stanza: first two cells of each row. -/
def specsFromTables (tables : List Elem) (o : Obj) : Obj :=
  tables.foldl (fun acc t =>
    (t.selAll "tr").foldl (fun acc2 r =>
      match r.selAll "td, th" with
      | c0 :: c1 :: _ =>
        let k := c0.textStripped
        let v := c1.textStripped
        if k ≠ "" ∧ v ≠ "" then setKey acc2 k (.str v) else acc2
      | _ => acc2) acc) o

/-- live description key-value stanza: first 10 matches of one findall
pattern, with length limits. -/
def specsFromPairs (ms : List (String × String)) (o : Obj) : Obj :=
  (ms.take 10).foldl (fun acc kv =>
    let k := trimStr kv.1
    let v := trimStr kv.2
    if k.length < 50 ∧ v.length < 200 then setKey acc k (.str v) else acc) o

/-- live _extract_specifications. -/
def extractSpecifications (d : Doc) : Obj :=
  let specs := specsFromTables
    (d.selAll ".product-specs table, .specifications table, .product-props table") []
  match d.selOne ".product-description, .item-description" with
  | some e =>
    specsFromPairs (findallSpecDash e.textRaw)
      (specsFromPairs (findallSpecColon e.textRaw) specs)
  | none => specs

/-- live _extract_seller_info. -/
def extractSellerInfo (d : Doc) : Obj :=
  let seller : Obj := []
  let seller := match d.selOne "a[href*=\"/store/\"], .store-link, .seller-link" with
    | some link =>
      let s1 := setKey seller "store_url" (.str ((link.getAttr "href").getD ""))
      match link.selOne ".store-name, .seller-name" with
      | some n => setKey s1 "store_name" (.str n.textStripped)
      | none =>
        if link.textRaw ≠ "" then setKey s1 "store_name" (.str link.textStripped)
        else s1
    | none => seller
  let seller := match d.selOne ".store-rating, .seller-rating" with
    | some e =>
      match searchNum e.textRaw with
      | some q => setKey seller "store_rating" (.num q)
      | none => seller
    | none => seller
  let seller := match d.selOne ".store-followers, .follower-count" with
    | some e =>
      match firstDigits e.textRaw with
      | some n => setKey seller "followers" (.int n)
      | none => seller
    | none => seller
  let seller := match d.selOne ".store-years, .years-in-business" with
    | some e =>
      match firstDigits e.textRaw with
      | some n => setKey seller "years_in_business" (.int n)
      | none => seller
    | none => seller
  seller

/-- live _extract_javascript_data pattern table, in dict insertion
order: key and literal assignment target. -/
def jsPatterns : List (String × String) :=
  [("runParams", "window.runParams"), ("DCData", "window._d_c_.DCData"),
   ("productData", "window.productData"), ("pageData", "window.pageData")]

/-- live per-pattern step: structural parse on success, raw matched
text on parse failure. -/
def jsApplyOne (jloads : String → Option Value) (content : String)
    (acc : Obj) (kp : String × String) : Obj :=
  match searchJsAssign kp.2 content with
  | some g =>
    match jloads g with
    | some v => setKey acc kp.1 v
    | none => setKey acc kp.1 (.str g)
  | none => acc

/-- live per-script pattern pass. -/
def jsApplyPatterns (jloads : String → Option Value) (content : String)
    (o : Obj) : Obj :=
  jsPatterns.foldl (jsApplyOne jloads content) o

/-- live _extract_javascript_data: every script, every pattern. -/
def extractJavascriptData (jloads : String → Option Value) (d : Doc) : Obj :=
  d.scripts.foldl (fun acc c => jsApplyPatterns jloads c acc) []

/-- comprehensive extract_javascript_data: scripts filtered per
variable; a parse failure silently drops the field (except: pass). -/
def compExtractJavascriptData (jloads : String → Option Value) (d : Doc) : Obj :=
  let js : Obj := []
  let js := (d.scripts.filter (fun c => containsSub c "window.runParams")).foldl
    (fun acc c =>
      match searchJsAssign "window.runParams" c with
      | some g =>
        match jloads g with
        | some v => setKey acc "runParams" v
        | none => acc
      | none => acc) js
  let js := (d.scripts.filter (fun c => containsSub c "window._d_c_")).foldl
    (fun acc c =>
      match searchJsAssign "window._d_c_.DCData" c with
      | some g =>
        match jloads g with
        | some v => setKey acc "DCData" v
        | none => acc
      | none => acc) js
  js

/-- live _extract_meta_tags. -/
def extractMetaTags (d : Doc) : Obj :=
  let meta : Obj := []
  let meta := (d.selAll "meta[property^=\"og:\"]").foldl (fun acc tag =>
    let prop := replaceAll ((tag.getAttr "property").getD "") "og:" ""
    let content := (tag.getAttr "content").getD ""
    if prop ≠ "" ∧ content ≠ "" then
      setKey acc ("og_" ++ prop) (.str content)
    else acc) meta
  let meta :=
    let appLinks := (d.selAll "meta[property^=\"al:\"]").foldl (fun acc tag =>
      let prop := (tag.getAttr "property").getD ""
      let content := (tag.getAttr "content").getD ""
      if prop ≠ "" ∧ content ≠ "" then setKey acc prop (.str content) else acc) []
    if !appLinks.isEmpty then setKey meta "app_links" (.obj appLinks) else meta
  let meta := ["description", "keywords", "author"].foldl (fun acc name =>
    match d.selOne ("meta[name=\"" ++ name ++ "\"]") with
    | some tag => setKey acc name (.str ((tag.getAttr "content").getD ""))
    | none => acc) meta
  meta

def charIn (set : String) (c : Char) : Bool := set.toList.contains c

/-- Continuation of _detect_page_language after the lang attribute. -/
def detectPageLanguageRest (d : Doc) : String :=
  match d.selOne "meta[name=\"language\"]" with
  | some m => (m.getAttr "content").getD ""
  | none =>
    let sample := (d.fullText.toList.take 1000)
    if sample.any (charIn "ąćęłńóśźż") then "pl"
    else if sample.any (charIn "àáâãäåæçèéêëìíîïñòóôõöøùúûüý") then "fr"
    else if sample.any (charIn "äöüß") then "de"
    else "en"

/-- live _detect_page_language: html lang attribute, language meta tag,
then diacritic heuristics over a 1000-character text sample, default
"en". -/
def detectPageLanguage (d : Doc) : String :=
  match d.htmlLang with
  | some lang =>
    if lang ≠ "" then lang
    else detectPageLanguageRest d
  | none => detectPageLanguageRest d

/-! ## Record assembler -/

/-- live _extract_all_data's dict literal: fixed top-level keys in
source order, provenance url and timestamp, detected language. -/
def assembleRecord (url : String)
    (basic pricing reviews variations images shipping specs seller js meta : Obj)
    (ts lang : String) : Obj :=
  [("url", .str url),
   ("basic_info", .obj basic),
   ("pricing", .obj pricing),
   ("reviews_and_ratings", .obj reviews),
   ("product_variations", .obj variations),
   ("images", .obj images),
   ("shipping_info", .obj shipping),
   ("specifications", .obj specs),
   ("seller_info", .obj seller),
   ("javascript_data", .obj js),
   ("meta_tags", .obj meta),
   ("scraping_timestamp", .str ts),
   ("page_language", .str lang)]

/-- live _extract_all_data: run every extractor and assemble; the
timestamp is the datetime.now() reading, passed as a parameter. -/
def extractAllData (jloads : String → Option Value) (d : Doc)
    (url ts : String) : Obj :=
  assembleRecord url (extractBasicInfo d) (extractPricing d) (extractReviews d)
    (extractProductVariations d) (extractImages jloads d) (extractShippingInfo d)
    (extractSpecifications d) (extractSellerInfo d) (extractJavascriptData jloads d)
    (extractMetaTags d) ts (detectPageLanguage d)

/-! ## Extractor failure boundary

Every field extractor in the source has the same shape: initialise an
empty dict, run a sequence of statements that may mutate it, and catch
any exception at the function boundary, returning the dict as
accumulated so far.  We model a statement as a state transformer that
may fault, and the try/except wrapper as a runner that stops at the
first fault and returns the accumulated mapping. -/

/-- One extractor statement: reads the document, transforms the partial
mapping, or faults. -/
abbrev ExtStep := Doc → Obj → Except Unit Obj

/-- The try/except body: execute statements until one faults; the
accumulated mapping survives the fault. -/
def runBody (d : Doc) : Obj → List ExtStep → Obj
  | acc, [] => acc
  | acc, s :: rest =>
    match s d acc with
    | Except.ok acc2 => runBody d acc2 rest
    | Except.error _ => acc

/-- An extractor wrapped in its failure boundary: starts from the empty
mapping and never raises. -/
def extractorBoundary (d : Doc) (steps : List ExtStep) : Obj :=
  runBody d [] steps

/-- Fault-free execution of a statement list. -/
def runAllOk (d : Doc) : Obj → List ExtStep → Option Obj
  | acc, [] => some acc
  | acc, s :: rest =>
    match s d acc with
    | Except.ok acc2 => runAllOk d acc2 rest
    | Except.error _ => none

/-! ## Cascade and stanza lemmas -/

theorem firstMatch_eq_none (q : String → Option Elem) (sels : List String)
    (h : ∀ s ∈ sels, q s = none) : firstMatch q sels = none := by
  induction sels with
  | nil => rfl
  | cons s rest ih =>
    have hs := h s (List.mem_cons_self s rest)
    simp only [firstMatch, hs]
    exact ih (fun t ht => h t (List.mem_cons_of_mem s ht))

theorem firstMatch_append_hit (q : String → Option Elem) (pre post : List String)
    (s : String) (e : Elem) (hpre : ∀ t ∈ pre, q t = none) (hit : q s = some e) :
    firstMatch q (pre ++ s :: post) = some e := by
  induction pre with
  | nil => simp [firstMatch, hit]
  | cons t rest ih =>
    have ht := hpre t (List.mem_cons_self t rest)
    simp only [List.cons_append, firstMatch, ht]
    exact ih (fun u hu => hpre u (List.mem_cons_of_mem t hu))

theorem lookup_pricingOriginal (d : Doc) (o : Obj) (k : String)
    (h : k ≠ "original_price") : lookupObj (pricingOriginal d o) k = lookupObj o k := by
  have h2 : "original_price" ≠ k := fun he => h he.symm
  unfold pricingOriginal
  split
  · simp [lookupObj_setKey, h2]
  · rfl

theorem lookup_pricingBulk (d : Doc) (o : Obj) (k : String)
    (h : k ≠ "bulk_price") : lookupObj (pricingBulk d o) k = lookupObj o k := by
  have h2 : "bulk_price" ≠ k := fun he => h he.symm
  unfold pricingBulk
  split
  · split
    · simp [lookupObj_setKey, h2]
    · rfl
  · rfl

theorem lookup_pricingDiscount (d : Doc) (o : Obj) (k : String)
    (h : k ≠ "discount") : lookupObj (pricingDiscount d o) k = lookupObj o k := by
  have h2 : "discount" ≠ k := fun he => h he.symm
  unfold pricingDiscount
  split
  · simp [lookupObj_setKey, h2]
  · rfl

theorem lookup_pricingCurrency (o : Obj) (k : String)
    (h : k ≠ "currency") : lookupObj (pricingCurrency o) k = lookupObj o k := by
  have h2 : "currency" ≠ k := fun he => h he.symm
  unfold pricingCurrency
  split
  · split
    · split
      · simp [lookupObj_setKey, h2]
      · rfl
    · rfl
  · rfl

theorem lookup_pricingTax (d : Doc) (o : Obj) (k : String)
    (h : k ≠ "tax_info") : lookupObj (pricingTax d o) k = lookupObj o k := by
  have h2 : "tax_info" ≠ k := fun he => h he.symm
  unfold pricingTax
  split
  · simp [lookupObj_setKey, h2]
  · rfl

/-- The current price in the assembled pricing mapping is exactly the
outcome of the current-price cascade; later stanzas never touch it. -/
theorem lookup_extractPricing_current (d : Doc) :
    lookupObj (extractPricing d) "current_price" =
      (firstMatch d.selOne priceSelectors).map (fun e => Value.str e.textStripped) := by
  unfold extractPricing
  rw [lookup_pricingTax d _ _ (by decide), lookup_pricingCurrency _ _ (by decide),
    lookup_pricingDiscount d _ _ (by decide), lookup_pricingBulk d _ _ (by decide),
    lookup_pricingOriginal d _ _ (by decide)]
  unfold pricingCurrent
  cases firstMatch d.selOne priceSelectors with
  | none => rfl
  | some e => simp [lookupObj_setKey_self]

/-- The title in the basic-info mapping is exactly the outcome of the
title cascade; later statements never touch it. -/
theorem lookup_extractBasicInfo_title (d : Doc) :
    lookupObj (extractBasicInfo d) "title" =
      (firstMatch d.selOne titleSelectors).map (fun e => Value.str e.textStripped) := by
  unfold extractBasicInfo
  cases hb : extractBrand d <;>
    cases hp : extractProductId d <;>
      cases ht : firstMatch d.selOne titleSelectors <;>
        simp [lookupObj_setKey]

theorem lookup_reviewsRating (d : Doc) (o : Obj) (k : String)
    (h : k ≠ "rating") : lookupObj (reviewsRating d o) k = lookupObj o k := by
  have h2 : "rating" ≠ k := fun he => h he.symm
  unfold reviewsRating
  split
  · split
    · simp [lookupObj_setKey, h2]
    · rfl
  · rfl

theorem lookup_reviewsCountLoop (d : Doc) (o : Obj) (k : String)
    (sels : List String) (h : k ≠ "review_count") :
    lookupObj (reviewsCountLoop d o sels) k = lookupObj o k := by
  have h2 : "review_count" ≠ k := fun he => h he.symm
  induction sels with
  | nil => rfl
  | cons s rest ih =>
    unfold reviewsCountLoop
    split
    · split
      · simp [lookupObj_setKey, h2]
      · exact ih
    · exact ih

theorem lookup_reviewsSoldLoop (d : Doc) (o : Obj) (k : String)
    (sels : List String) (h : k ≠ "sold_count") :
    lookupObj (reviewsSoldLoop d o sels) k = lookupObj o k := by
  have h2 : "sold_count" ≠ k := fun he => h he.symm
  induction sels with
  | nil => rfl
  | cons s rest ih =>
    unfold reviewsSoldLoop
    split
    · split
      · split
        · simp [lookupObj_setKey, h2]
        · exact ih
      · exact ih
    · exact ih

/-! ## Concrete documents for witnesses and counterexamples -/

/-- A page on which no locator matches anything. -/
def emptyDoc : Doc := ⟨[], [], [], [], [], none, none, ""⟩

/-- A price element with visible text "$9.99". -/
def priceElemC4 : Elem := .mk "span" [] [] "$9.99" "$9.99" [] []

/-- A page whose only match is the first current-price selector. -/
def docC4 : Doc :=
  ⟨[("span.product-price-value", priceElemC4)], [], [], [], [], none, none, ""⟩

/-- An og:url meta tag carrying an item URL. -/
def ogElemC5 : Elem :=
  .mk "meta" [("content", "https://www.aliexpress.com/item/1005006722922099.html")]
    [] "" "" [] []

/-- A page identified only through its og:url meta tag. -/
def docC5 : Doc :=
  ⟨[("meta[property=\"og:url\"]", ogElemC5)], [], [], [], [], none, none, ""⟩

/-- A review block with no recognisable sub-elements: its parsed
descriptor is empty. -/
def bareReviewElem : Elem := .mk "div" [] [] "" "" [] []

/-- A page with 25 review blocks that all parse to empty descriptors. -/
def docC6bare : Doc :=
  ⟨[], [(reviewItemsSelector, List.replicate 25 bareReviewElem)], [], [], [],
    none, none, ""⟩

/-- A reviewer-info sub-element. -/
def reviewerInfoElem : Elem := .mk "span" [] [] "Anna | 12 Jan" "Anna | 12 Jan" [] []

/-- A review block whose descriptor is nonempty. -/
def goodReviewElem : Elem :=
  .mk "div" [] [] "" "" [(".reviewer-info, .review-author", reviewerInfoElem)] []

/-- A page with 25 review blocks that all parse to nonempty
descriptors. -/
def docC6good : Doc :=
  ⟨[], [(reviewItemsSelector, List.replicate 25 goodReviewElem)], [], [], [],
    none, none, ""⟩

/-- A variation-axis title element reading "Color:". -/
def varTitleElem : Elem := .mk "div" [] [] "Color:" "Color:" [] []

/-- An option carrying only visible text: no image, no alt text, no
selected flag, no sold-out flag. -/
def textOnlyOption : Elem := .mk "div" [] [] "Red" "Red" [] []

/-- A titled axis whose single option carries only text. -/
def textOnlyAxisElem : Elem :=
  .mk "div" [] [] "" "" [(variationTitleSelector, varTitleElem)]
    [(variationOptionSelector, [textOnlyOption])]

/-- An option carrying only the selected class flag. -/
def selectedOption : Elem := .mk "div" [] ["sku-item--selected--ITGY_EO"] "" "" [] []

/-- An option carrying only the sold-out class flag. -/
def soldOutOption : Elem := .mk "div" [] ["sku-item--soldOut--YJfuCGq"] "" "" [] []

/-- A titled axis whose options are one selected and one sold-out
marker. -/
def flagAxisElem : Elem :=
  .mk "div" [] [] "" "" [(variationTitleSelector, varTitleElem)]
    [(variationOptionSelector, [selectedOption, soldOutOption])]

/-- A script assigning a non-JSON value to window.runParams. -/
def jsScriptC9 : String := "window.runParams = \x7binvalid\x7d;"

/-- A page whose single script carries the malformed assignment. -/
def docC9 : Doc := ⟨[], [], [], [], [jsScriptC9], none, none, ""⟩

/-- A JSON parser that rejects its input, as json.loads does on the
matched text "\x7binvalid\x7d". -/
def jlNone : String → Option Value := fun _ => none

/-- The individual-reviews entry is exactly the bounded, filtered parse
of the first ten review blocks; absent when none survives. -/
theorem lookup_extractReviews_individual (d : Doc) :
    lookupObj (extractReviews d) "individual_reviews" =
      (let individual := (((d.selAll reviewItemsSelector).take 10).map
          parseIndividualReview).filter (fun rd => !rd.isEmpty)
       if !individual.isEmpty then some (.list (individual.map Value.obj)) else none) := by
  unfold extractReviews reviewsIndividual
  dsimp only
  split
  · simp only [lookupObj_setKey_self]
  · rw [lookup_reviewsSoldLoop d _ _ _ (by decide),
      lookup_reviewsCountLoop d _ _ _ (by decide),
      lookup_reviewsRating d _ _ (by decide)]
    rfl

/-! ## Claim theorems -/

def outputSchemaKeys : List String :=
  ["url", "basic_info", "pricing", "reviews_and_ratings", "product_variations",
   "images", "shipping_info", "specifications", "seller_info", "javascript_data",
   "meta_tags", "scraping_timestamp", "page_language"]

/-- C1 counterexample: with every field extractor returning an empty
mapping, the assembled record is not "a record containing only url and
scraping_timestamp" — all thirteen top-level keys are still present
(e.g. pricing). -/
theorem c1_only_url_timestamp_refuted :
    keysOf (assembleRecord "https://www.aliexpress.com/item/1.html"
        [] [] [] [] [] [] [] [] [] [] "2024-01-01T00:00:00" "en") ≠
      ["url", "scraping_timestamp"] ∧
    "pricing" ∈ keysOf (assembleRecord "https://www.aliexpress.com/item/1.html"
        [] [] [] [] [] [] [] [] [] [] "2024-01-01T00:00:00" "en") := by
  constructor
  · decide
  · decide

/-- C1 (amended): the record assembler is a total function whose
top-level keys are always exactly the output-schema set, in source
order; when every field extractor returns an empty mapping the record
still carries all thirteen keys, every field-group key bound to an
empty mapping, so only url and scraping_timestamp (and the language
default) carry data. -/
theorem c1_record_schema :
    (∀ (jloads : String → Option Value) (d : Doc) (url ts : String),
      keysOf (extractAllData jloads d url ts) = outputSchemaKeys) ∧
    (∀ url ts lang : String,
      assembleRecord url [] [] [] [] [] [] [] [] [] [] ts lang =
        [("url", .str url), ("basic_info", .obj []), ("pricing", .obj []),
         ("reviews_and_ratings", .obj []), ("product_variations", .obj []),
         ("images", .obj []), ("shipping_info", .obj []),
         ("specifications", .obj []), ("seller_info", .obj []),
         ("javascript_data", .obj []), ("meta_tags", .obj []),
         ("scraping_timestamp", .str ts), ("page_language", .str lang)]) :=
  ⟨fun _ _ _ _ => rfl, fun _ _ _ => rfl⟩

/-- C3: the numeric coercion of count texts: "12.3k" yields 12300,
"2.1m" yields 2100000, "1,234" yields 1234 (separator stripped),
"12.5k" yields 12500, "3.2m" yields 3200000, and unparseable text such
as "N/A" yields no value. -/
theorem c3_numeric_coercion :
    extract_number_from_text "12.3k" = some 12300 ∧
    extract_number_from_text "2.1m" = some 2100000 ∧
    extract_number_from_text "1,234" = some 1234 ∧
    extract_number_from_text "12.5k" = some 12500 ∧
    extract_number_from_text "3.2m" = some 3200000 ∧
    extract_number_from_text "N/A" = none := by
  refine ⟨?_, ?_, ?_, ?_, ?_, ?_⟩ <;> decide

/-- C10: the extraction engine is deterministic up to provenance — two
runs over the same parsed document with the same source URL produce
identical records except for the scraping_timestamp field. -/
theorem c10_determinism_up_to_timestamp
    (jloads : String → Option Value) (d : Doc) (url ts1 ts2 : String) :
    eraseKey (extractAllData jloads d url ts1) "scraping_timestamp" =
      eraseKey (extractAllData jloads d url ts2) "scraping_timestamp" := by
  simp [extractAllData, assembleRecord, eraseKey]

/-- C2 counterexample: on a page where no category locator resolves
(no breadcrumbs, no category meta tag), the basic-info mapping still
stores the placeholder value "Unknown" under category — the field is
not absent. -/
theorem c2_category_placeholder_refuted :
    emptyDoc.selAll ".breadcrumb a, .nav-breadcrumb a" = [] ∧
    emptyDoc.selOne "meta[name=\"category\"]" = none ∧
    lookupObj (extractBasicInfo emptyDoc) "category" = some (.str "Unknown") :=
  ⟨rfl, rfl, rfl⟩

/-- C2 (amended): apart from basic_info.category — which is always
assigned, with placeholder "Unknown" when no breadcrumb or meta
resolves — a field no locator resolves is absent from the output
mapping: when no price selector matches, pricing lacks current_price
and the extractor still returns an object; when no title selector
matches, basic_info lacks title. -/
theorem c2_unresolved_fields_absent (d : Doc) :
    ((∀ s ∈ priceSelectors, d.selOne s = none) →
      lookupObj (extractPricing d) "current_price" = none) ∧
    ((∀ s ∈ titleSelectors, d.selOne s = none) →
      lookupObj (extractBasicInfo d) "title" = none) := by
  constructor
  · intro h
    rw [lookup_extractPricing_current, firstMatch_eq_none d.selOne priceSelectors h]
    rfl
  · intro h
    rw [lookup_extractBasicInfo_title, firstMatch_eq_none d.selOne titleSelectors h]
    rfl

/-- C2 witness: on the empty page both hypotheses hold and both fields
are indeed absent. -/
theorem c2_unresolved_fields_absent_witness :
    lookupObj (extractPricing emptyDoc) "current_price" = none ∧
    lookupObj (extractBasicInfo emptyDoc) "title" = none :=
  ⟨(c2_unresolved_fields_absent emptyDoc).1 (fun _ _ => rfl),
   (c2_unresolved_fields_absent emptyDoc).2 (fun _ _ => rfl)⟩

/-- C4: current_price is the whitespace-normalized visible text of the
node matched by the first locator in the pricing cascade that matches;
locators before it all failed and locators after it are not consulted
(the conclusion does not depend on them). -/
theorem c4_price_cascade_short_circuit (d : Doc) (pre : List String)
    (s : String) (post : List String) (e : Elem)
    (hsels : priceSelectors = pre ++ s :: post)
    (hpre : ∀ t ∈ pre, d.selOne t = none) (hit : d.selOne s = some e) :
    lookupObj (extractPricing d) "current_price" = some (.str e.textStripped) := by
  rw [lookup_extractPricing_current, hsels,
    firstMatch_append_hit d.selOne pre post s e hpre hit]
  rfl

theorem productIdFromDriver_hit (d : Doc) (u g : String)
    (hcur : d.currentUrl = some u) (hitem : searchItemId u = some g) :
    productIdFromDriver d = some g := by
  unfold productIdFromDriver
  rw [hcur]
  dsimp only
  rw [hitem]

theorem productIdFromDriver_miss (d : Doc)
    (hcur : ∀ u, d.currentUrl = some u → searchItemId u = none) :
    productIdFromDriver d = productIdFromScripts d.scripts := by
  unfold productIdFromDriver
  cases h : d.currentUrl with
  | none => rfl
  | some u =>
    dsimp only
    rw [hcur u h]

/-- C5: the product identifier is derived in priority order from the
og:url meta tag, then the driver's current URL, then embedded script
variables with an id-like key; the first source to succeed wins and the
rest are not consulted; markup whose og:url contains
/item/1005006722922099.html yields basic_info.product_id
"1005006722922099". -/
theorem c5_product_id_priority :
    (∀ (d : Doc) (og : Elem) (g : String),
      d.selOne "meta[property=\"og:url\"]" = some og →
      searchItemId ((og.getAttr "content").getD "") = some g →
      extractProductId d = some g) ∧
    (∀ (d : Doc) (u g : String),
      (∀ og, d.selOne "meta[property=\"og:url\"]" = some og →
        searchItemId ((og.getAttr "content").getD "") = none) →
      d.currentUrl = some u → searchItemId u = some g →
      extractProductId d = some g) ∧
    (∀ d : Doc,
      (∀ og, d.selOne "meta[property=\"og:url\"]" = some og →
        searchItemId ((og.getAttr "content").getD "") = none) →
      (∀ u, d.currentUrl = some u → searchItemId u = none) →
      extractProductId d = productIdFromScripts d.scripts) ∧
    lookupObj (extractBasicInfo docC5) "product_id" =
      some (.str "1005006722922099") := by
  refine ⟨?_, ?_, ?_, ?_⟩
  · intro d og g hog hitem
    unfold extractProductId
    rw [hog]
    dsimp only
    rw [hitem]
  · intro d u g hog hcur hitem
    unfold extractProductId
    cases hsel : d.selOne "meta[property=\"og:url\"]" with
    | none => exact productIdFromDriver_hit d u g hcur hitem
    | some og =>
      dsimp only
      rw [hog og hsel]
      exact productIdFromDriver_hit d u g hcur hitem
  · intro d hog hcur
    unfold extractProductId
    cases hsel : d.selOne "meta[property=\"og:url\"]" with
    | none => exact productIdFromDriver_miss d hcur
    | some og =>
      dsimp only
      rw [hog og hsel]
      exact productIdFromDriver_miss d hcur
  · rfl

/-- C5 witness: the first source fires on the concrete page carrying
the item URL in its og:url meta tag. -/
theorem c5_product_id_priority_witness :
    extractProductId docC5 = some "1005006722922099" :=
  c5_product_id_priority.1 docC5 ogElemC5 "1005006722922099" rfl rfl

/-- C6 counterexample: a page with 25 review blocks matching the review
locator on which individual_reviews does not have 10 entries — the
blocks parse to empty descriptors, which the loop skips, so the list
stays empty and the key is absent. -/
theorem c6_exactly_ten_refuted :
    (docC6bare.selAll reviewItemsSelector).length = 25 ∧
    lookupObj (extractReviews docC6bare) "individual_reviews" = none :=
  ⟨rfl, rfl⟩

/-- C6 (amended): the individual-reviews list never exceeds 10 entries;
its entries come from the first 10 review blocks in document order,
keeping only blocks whose parsed descriptor is nonempty; with 25 blocks
it has exactly 10 entries when each of the first 10 parses to a
nonempty descriptor. -/
theorem c6_reviews_bounded (d : Doc) :
    (∀ vs, lookupObj (extractReviews d) "individual_reviews" = some (.list vs) →
      vs.length ≤ 10) ∧
    ((d.selAll reviewItemsSelector).length = 25 →
      (∀ e ∈ (d.selAll reviewItemsSelector).take 10, parseIndividualReview e ≠ []) →
      lookupObj (extractReviews d) "individual_reviews" =
        some (.list (((d.selAll reviewItemsSelector).take 10).map
          (fun e => Value.obj (parseIndividualReview e))))) := by
  constructor
  · intro vs h
    rw [lookup_extractReviews_individual] at h
    dsimp only at h
    split at h
    · have h2 := Option.some.inj h
      have h3 := Value.list.inj h2
      rw [← h3, List.length_map]
      calc ((((d.selAll reviewItemsSelector).take 10).map
              parseIndividualReview).filter (fun rd => !rd.isEmpty)).length
        ≤ (((d.selAll reviewItemsSelector).take 10).map parseIndividualReview).length :=
          List.length_filter_le _ _
        _ = ((d.selAll reviewItemsSelector).take 10).length := List.length_map _ _
        _ ≤ 10 := by rw [List.length_take]; exact Nat.min_le_left _ _
    · exact absurd h (by simp)
  · intro h25 hne
    rw [lookup_extractReviews_individual]
    dsimp only
    have hf : (((d.selAll reviewItemsSelector).take 10).map
        parseIndividualReview).filter (fun rd => !rd.isEmpty) =
        ((d.selAll reviewItemsSelector).take 10).map parseIndividualReview := by
      refine List.filter_eq_self.mpr ?_
      intro a ha
      obtain ⟨e, he, hpe⟩ := List.mem_map.mp ha
      subst hpe
      simpa [List.isEmpty_iff] using hne e he
    rw [hf]
    have hlen : (((d.selAll reviewItemsSelector).take 10).map
        parseIndividualReview).length = 10 := by
      rw [List.length_map, List.length_take, h25]
      decide
    have hne2 : ((d.selAll reviewItemsSelector).take 10).map
        parseIndividualReview ≠ [] := by
      intro h0
      rw [h0] at hlen
      exact absurd hlen (by decide)
    rw [if_pos (by simpa [List.isEmpty_iff] using hne2), List.map_map]
    rfl

/-- C6 witness: 25 review blocks that all parse to nonempty descriptors
give exactly the first ten, in order. -/
theorem c6_reviews_bounded_witness :
    lookupObj (extractReviews docC6good) "individual_reviews" =
      some (.list (((docC6good.selAll reviewItemsSelector).take 10).map
        (fun e => Value.obj (parseIndividualReview e)))) :=
  (c6_reviews_bounded docC6good).2 rfl (by
    intro e he
    have he2 : e ∈ (List.replicate 25 goodReviewElem).take 10 := he
    have he3 : e ∈ List.replicate 25 goodReviewElem := List.take_subset _ _ he2
    have he4 : e = goodReviewElem := (List.mem_replicate.mp he3).2
    subst he4
    intro h0
    exact List.cons_ne_nil _ _ h0)

/-- C7 counterexample: the live parser retains an option whose
descriptor holds only visible text — none of image, alt text, selected
or sold-out is present, refuting "retained only if at least one of
those four is present". -/
theorem c7_four_key_rule_refuted :
    parseVariationItem textOnlyAxisElem =
      [("Color", Value.list [Value.obj [("text", Value.str "Red")]])] ∧
    lookupObj [("text", Value.str "Red")] "image" = none ∧
    lookupObj [("text", Value.str "Red")] "alt_text" = none ∧
    lookupObj [("text", Value.str "Red")] "selected" = none ∧
    lookupObj [("text", Value.str "Red")] "sold_out" = none :=
  ⟨rfl, rfl, rfl, rfl, rfl⟩

/-- C7 (amended): for a titled variation axis, an option is retained
iff its descriptor is nonempty — at least one of image, alt text,
visible text, selected flag, sold-out flag; the axis is absent exactly
when no option descriptor survives, so an axis whose options carry the
selected and sold-out flags is retained and a titled axis with only
empty options is dropped. -/
theorem c7_variation_option_retention (e : Elem) (t : Elem)
    (htitle : e.selOne variationTitleSelector = some t) :
    parseVariationItem e = [] ↔
      ∀ o ∈ e.selAll variationOptionSelector, optionDescriptor o = [] := by
  unfold parseVariationItem
  rw [htitle]
  dsimp only
  constructor
  · intro h
    split at h
    · exact absurd h (List.cons_ne_nil _ _)
    · next hcond =>
      have hfil : ((e.selAll variationOptionSelector).map optionDescriptor).filter
          (fun od => !od.isEmpty) = [] := by
        revert hcond
        cases hx : ((e.selAll variationOptionSelector).map optionDescriptor).filter
            (fun od => !od.isEmpty) with
        | nil => intro _; rfl
        | cons a l => intro hcond; simp at hcond
      intro o ho
      have hmem : optionDescriptor o ∈
          (e.selAll variationOptionSelector).map optionDescriptor :=
        List.mem_map_of_mem _ ho
      have := List.filter_eq_nil_iff.mp hfil (optionDescriptor o) hmem
      simpa [List.isEmpty_iff] using this
  · intro h
    have hfil : ((e.selAll variationOptionSelector).map optionDescriptor).filter
        (fun od => !od.isEmpty) = [] := by
      refine List.filter_eq_nil_iff.mpr ?_
      intro a ha
      obtain ⟨o, ho, hoa⟩ := List.mem_map.mp ha
      subst hoa
      simp [List.isEmpty_iff, h o ho]
    rw [hfil]
    simp

/-- C7 witness: the axis whose options carry only the selected and
sold-out flags is retained. -/
theorem c7_variation_option_retention_witness :
    flagAxisElem.selOne variationTitleSelector = some varTitleElem ∧
    parseVariationItem flagAxisElem ≠ [] :=
  ⟨rfl, fun h =>
    List.cons_ne_nil _ _
      ((c7_variation_option_retention flagAxisElem varTitleElem rfl).mp h
        selectedOption (List.mem_cons_self _ _))⟩

/-- C4 witness: a page matching only the first selector of the cascade
extracts exactly that node's stripped text. -/
theorem c4_price_cascade_witness :
    lookupObj (extractPricing docC4) "current_price" = some (.str "$9.99") :=
  c4_price_cascade_short_circuit docC4 [] "span.product-price-value"
    [".price--currentPriceText--V8_y_b5", ".pdp-comp-price-current",
     "[data-pl=\"product-price\"] .price--current--I3Zeidd span"]
    priceElemC4 rfl (fun t ht => absurd ht (List.not_mem_nil t)) rfl

theorem runBody_append_fault (d : Doc) (f : ExtStep) (post : List ExtStep) :
    ∀ (pre : List ExtStep) (acc0 acc : Obj),
      runAllOk d acc0 pre = some acc → f d acc = Except.error () →
      runBody d acc0 (pre ++ f :: post) = acc := by
  intro pre
  induction pre with
  | nil =>
    intro acc0 acc h hf
    have h0 : acc0 = acc := Option.some.inj h
    subst h0
    simp only [List.nil_append, runBody, hf]
  | cons s rest ih =>
    intro acc0 acc h hf
    unfold runAllOk at h
    cases hs : s d acc0 with
    | ok a2 =>
      rw [hs] at h
      simp only [List.cons_append, runBody, hs]
      exact ih a2 acc h hf
    | error err =>
      rw [hs] at h
      exact absurd h (by simp)

/-- C8: an exception inside one field extractor is caught at that
extractor's boundary: the extractor returns the partial mapping it had
accumulated before the fault (statements after the fault do not run),
and the assembled record still carries every other extractor's result
unchanged. -/
theorem c8_extractor_fault_isolation (d : Doc) (pre post : List ExtStep)
    (f : ExtStep) (acc : Obj)
    (gp gr gv gi gsh gsp gse gjs gmt : Obj) (url ts lang : String)
    (hpre : runAllOk d [] pre = some acc) (hf : f d acc = Except.error ()) :
    extractorBoundary d (pre ++ f :: post) = acc ∧
    lookupObj (assembleRecord url (extractorBoundary d (pre ++ f :: post))
      gp gr gv gi gsh gsp gse gjs gmt ts lang) "basic_info" = some (.obj acc) ∧
    lookupObj (assembleRecord url (extractorBoundary d (pre ++ f :: post))
      gp gr gv gi gsh gsp gse gjs gmt ts lang) "pricing" = some (.obj gp) ∧
    lookupObj (assembleRecord url (extractorBoundary d (pre ++ f :: post))
      gp gr gv gi gsh gsp gse gjs gmt ts lang) "javascript_data" = some (.obj gjs) := by
  have hb : extractorBoundary d (pre ++ f :: post) = acc :=
    runBody_append_fault d f post pre [] acc hpre hf
  refine ⟨hb, ?_, ?_, ?_⟩ <;> rw [hb] <;> rfl

/-- A statement that succeeds and records one field. -/
def okStepC8 : ExtStep := fun _ o => Except.ok (setKey o "review_count" (.int 5))

/-- A statement that faults. -/
def failStepC8 : ExtStep := fun _ _ => Except.error ()

/-- C8 witness: one successful statement followed by a fault yields the
partial mapping, and the other field groups survive in the record. -/
theorem c8_extractor_fault_isolation_witness :
    extractorBoundary emptyDoc [okStepC8, failStepC8] = [("review_count", Value.int 5)] ∧
    lookupObj (assembleRecord "https://e.example" (extractorBoundary emptyDoc
      [okStepC8, failStepC8]) [] [] [] [] [] [] [] [] [] "t0" "en") "pricing" =
      some (.obj []) :=
  have h := c8_extractor_fault_isolation emptyDoc [okStepC8] [] failStepC8
    [("review_count", Value.int 5)] [] [] [] [] [] [] [] [] []
    "https://e.example" "t0" "en" rfl rfl
  ⟨h.1, h.2.2.1⟩

theorem lookup_jsApplyOne (jloads : String → Option Value) (content : String)
    (acc : Obj) (kp : String × String) (k : String) (h : kp.1 ≠ k) :
    lookupObj (jsApplyOne jloads content acc kp) k = lookupObj acc k := by
  unfold jsApplyOne
  split
  · split
    · simp [lookupObj_setKey, h]
    · simp [lookupObj_setKey, h]
  · rfl

/-- C9 counterexample: the comprehensive-scraper variant drops the
field on parse failure rather than storing the raw matched text — on a
page whose script assigns a non-JSON value to window.runParams, the
pattern matches and captures the raw text, the parse fails, and the
resulting javascript_data mapping is empty. -/
theorem c9_comp_raw_fallback_refuted :
    searchJsAssign "window.runParams" jsScriptC9 = some "\x7binvalid\x7d" ∧
    compExtractJavascriptData jlNone docC9 = [] :=
  ⟨rfl, rfl⟩

/-- C9 (amended): for a script matching a known global-variable
assignment pattern, the live extractor stores the parsed structure on
parse success and the raw matched text on parse failure; the
comprehensive variant stores only parsed values and drops the field on
parse failure. -/
theorem c9_js_raw_fallback (jloads : String → Option Value) (d : Doc)
    (s g : String) (hscripts : d.scripts = [s])
    (hmatch : searchJsAssign "window.runParams" s = some g) :
    ((jloads g = none →
        lookupObj (extractJavascriptData jloads d) "runParams" = some (.str g)) ∧
     (∀ v, jloads g = some v →
        lookupObj (extractJavascriptData jloads d) "runParams" = some v)) ∧
    (jloads g = none →
      lookupObj (compExtractJavascriptData jloads d) "runParams" = none) := by
  have hlive : ∀ x : Value,
      (match jloads g with
        | some v => setKey ([] : Obj) "runParams" v
        | none => setKey ([] : Obj) "runParams" (.str g)) =
        setKey ([] : Obj) "runParams" x →
      lookupObj (extractJavascriptData jloads d) "runParams" = some x := by
    intro x hx
    unfold extractJavascriptData
    rw [hscripts]
    simp only [List.foldl]
    unfold jsApplyPatterns jsPatterns
    simp only [List.foldl]
    rw [lookup_jsApplyOne jloads s _ ("pageData", "window.pageData") _ (by decide),
      lookup_jsApplyOne jloads s _ ("productData", "window.productData") _ (by decide),
      lookup_jsApplyOne jloads s _ ("DCData", "window._d_c_.DCData") _ (by decide)]
    unfold jsApplyOne
    rw [hmatch]
    dsimp only
    rw [hx, lookupObj_setKey_self]
  refine ⟨⟨?_, ?_⟩, ?_⟩
  · intro hjl
    exact hlive (.str g) (by rw [hjl])
  · intro v hjl
    exact hlive v (by rw [hjl])
  · intro hjl
    unfold compExtractJavascriptData
    rw [hscripts]
    dsimp only
    cases hc : containsSub s "window.runParams" <;>
      cases hc2 : containsSub s "window._d_c_" <;>
        simp only [List.filter, hc, hc2, List.foldl, hmatch, hjl] <;>
          (try rfl) <;>
          (cases hm2 : searchJsAssign "window._d_c_.DCData" s with
           | none => rfl
           | some g2 =>
             dsimp only
             cases hj2 : jloads g2 with
             | none => rfl
             | some v => simp [lookupObj_setKey])

/-- C9 witness: the live extractor stores the raw matched text when the
parse fails on the malformed runParams assignment. -/
theorem c9_js_raw_fallback_witness :
    lookupObj (extractJavascriptData jlNone docC9) "runParams" =
      some (.str "\x7binvalid\x7d") :=
  ((c9_js_raw_fallback jlNone docC9 jsScriptC9 "\x7binvalid\x7d" rfl rfl).1).1 rfl
